import Mathlib

/-!
Verification of the Titan-AI trading decision core against its specification.

The definitions below are a shallow embedding of the Python sources:

* `apps/desktop/run_api.py` — `VerifierAgent` (risk gate), `HARDetector`
  (edge-decay monitor);
* `apps/desktop/tms/risk/aggressive_risk.py` — `AggressiveRiskManager`
  (growth phases, halts, position sizing);
* `apps/desktop/tms/strategies/hyper_growth_engine.py` —
  `CompoundGrowthTracker`, signal fusion, engine position sizing;
* `apps/desktop/tms/memecoin/memecoin_engine.py` — `MemecoinPosition`
  lifecycle (trailing stops, partial exits) and the position-mutating part
  of `MemecoinEngine.execute_sell`.

Numeric values are modelled as exact rationals, Python strings that carry
only a tag (halt reasons, exit reasons) as inductive types, and wall-clock
inputs (the current date / time of day) as explicit parameters.
-/

/-! ## Risk gate (`VerifierAgent`, run_api.py) -/

/-- A fused signal as consumed by `VerifierAgent.verify_signal`:
`signal["strength"]` and whether `signal["side"] == "buy"`. -/
structure VerifySignal where
  strength : ℚ
  side_buy : Bool

/-- The fields of the shared `state` dict read by `verify_signal`. -/
structure VerifyState where
  noise_level : ℚ
  current_drawdown : ℚ
  daily_pnl_pct : ℚ
  regime_confidence : ℚ

/-- The environment-variable limits read by `verify_signal`, with the
defaults from the source (`TMS_MAX_DRAWDOWN=0.10`, `TMS_MAX_DAILY_LOSS=0.03`,
`STRATEGY_CONFIG["max_positions"]=5`). -/
structure VerifyEnv where
  max_drawdown : ℚ := 10/100
  max_daily_loss : ℚ := 3/100
  max_positions : ℕ := 5

/-- `VerifierAgent._check_variance_inequality`:
`abs(signal_strength) > noise_level * 2`. -/
def check_variance_inequality (strength noise_level : ℚ) : Bool :=
  decide (|strength| > noise_level * 2)

/-- The rejection reasons of `verify_signal` (the fixed prefix of each
f-string, without the interpolated numbers). -/
def variance_reason : String := "Variance inequality not satisfied"

/-- `VerifierAgent.verify_signal`: the six checks, in source order.
`num_positions` is `len(positions)`; `past_hard_stop` is the value of
`self._is_past_hard_stop()`. -/
def verify_signal (env : VerifyEnv) (sig : VerifySignal) (st : VerifyState)
    (num_positions : ℕ) (past_hard_stop : Bool) : Bool × String :=
  if check_variance_inequality sig.strength st.noise_level = false then
    (false, variance_reason)
  else if st.current_drawdown ≥ env.max_drawdown then
    (false, "Max drawdown exceeded")
  else if st.daily_pnl_pct ≤ -env.max_daily_loss then
    (false, "Daily loss limit hit")
  else if st.regime_confidence < 6/10 ∧ sig.side_buy = true then
    (false, "Low regime confidence")
  else if num_positions ≥ env.max_positions ∧ sig.side_buy = true then
    (false, "Max positions reached")
  else if past_hard_stop = true then
    (false, "Past hard stop time (3:50 PM ET)")
  else
    (true, "Signal verified")

/-- `VerifierAgent._is_past_hard_stop`, as a function of the current
Eastern-time hour and minute: `now.hour >= 15 and now.minute >= 50`. -/
def is_past_hard_stop (hour minute : ℕ) : Bool :=
  decide (hour ≥ 15) && decide (minute ≥ 50)

/-- The spec's hard-stop condition: the time of day is strictly later
than 3:50 PM. (Spec-side definition, for comparison with
`is_past_hard_stop`.) -/
def strictly_after_350pm (hour minute : ℕ) : Prop :=
  15 < hour ∨ (hour = 15 ∧ 50 < minute)

instance (hour minute : ℕ) : Decidable (strictly_after_350pm hour minute) := by
  unfold strictly_after_350pm; infer_instance

/-! ## Growth-phase risk manager (`AggressiveRiskManager`, aggressive_risk.py) -/

/-- `GrowthPhase` enum. -/
inductive GrowthPhase
  | seed | sprout | grow | mature
deriving DecidableEq, Repr

/-- `AggressiveRiskConfig` dataclass with source defaults. -/
structure AggressiveRiskConfig where
  seed_max : ℚ := 500
  sprout_max : ℚ := 2500
  grow_max : ℚ := 30000
  seed_max_position : ℚ := 40/100
  sprout_max_position : ℚ := 30/100
  grow_max_position : ℚ := 20/100
  mature_max_position : ℚ := 15/100
  seed_daily_loss_halt : ℚ := 40/100
  sprout_daily_loss_halt : ℚ := 30/100
  grow_daily_loss_halt : ℚ := 20/100
  mature_daily_loss_halt : ℚ := 10/100
  seed_drawdown_halt : ℚ := 50/100
  sprout_drawdown_halt : ℚ := 40/100
  grow_drawdown_halt : ℚ := 30/100
  mature_drawdown_halt : ℚ := 20/100
  max_consecutive_losses : ℕ := 6
  min_trade_value_usd : ℚ := 5

/-- The config instance built by `AggressiveRiskManager.__init__` when no
config is passed: all dataclass defaults. -/
def defaultRiskConfig : AggressiveRiskConfig := {}

/-- `AggressiveRiskManager.get_phase`. -/
def get_phase (cfg : AggressiveRiskConfig) (eq : ℚ) : GrowthPhase :=
  if eq < cfg.seed_max then .seed
  else if eq < cfg.sprout_max then .sprout
  else if eq < cfg.grow_max then .grow
  else .mature

/-- `AggressiveRiskManager.get_max_position_pct`. -/
def get_max_position_pct (cfg : AggressiveRiskConfig) (eq : ℚ) : ℚ :=
  match get_phase cfg eq with
  | .seed => cfg.seed_max_position
  | .sprout => cfg.sprout_max_position
  | .grow => cfg.grow_max_position
  | .mature => cfg.mature_max_position

/-- `AggressiveRiskManager.get_daily_loss_halt`. -/
def get_daily_loss_halt (cfg : AggressiveRiskConfig) (eq : ℚ) : ℚ :=
  match get_phase cfg eq with
  | .seed => cfg.seed_daily_loss_halt
  | .sprout => cfg.sprout_daily_loss_halt
  | .grow => cfg.grow_daily_loss_halt
  | .mature => cfg.mature_daily_loss_halt

/-- `AggressiveRiskManager.get_drawdown_halt`. -/
def get_drawdown_halt (cfg : AggressiveRiskConfig) (eq : ℚ) : ℚ :=
  match get_phase cfg eq with
  | .seed => cfg.seed_drawdown_halt
  | .sprout => cfg.sprout_drawdown_halt
  | .grow => cfg.grow_drawdown_halt
  | .mature => cfg.mature_drawdown_halt

/-- The result of `AggressiveRiskManager.calculate_position_size`. -/
structure PositionSize where
  position_pct : ℚ
  position_usd : ℚ
  max_loss_usd : ℚ
  max_loss_pct_of_equity : ℚ
  phase : GrowthPhase

/-- `AggressiveRiskManager.calculate_position_size`:
`size_pct = min(max_pct, max_pct * max(0.5, signal_strength))`, then the
notional is floored to `min_trade_value_usd` (re-deriving `size_pct` as
`position_usd / equity`) when it falls below that minimum. -/
def calculate_position_size (cfg : AggressiveRiskConfig)
    (equity signal_strength stop_distance_pct : ℚ) : PositionSize :=
  let max_pct := get_max_position_pct cfg equity
  let size_pct0 := max_pct * max (1/2) signal_strength
  let size_pct1 := min max_pct size_pct0
  let usd := equity * size_pct1
  let position_usd := if usd < cfg.min_trade_value_usd then cfg.min_trade_value_usd else usd
  let size_pct := if usd < cfg.min_trade_value_usd then cfg.min_trade_value_usd / equity
                  else size_pct1
  { position_pct := size_pct
    position_usd := position_usd
    max_loss_usd := position_usd * stop_distance_pct
    max_loss_pct_of_equity := size_pct * stop_distance_pct
    phase := get_phase cfg equity }

/-- Halt reasons of `AggressiveRiskManager`, abstracting the three fixed
f-string formats set by `update_equity`: "Daily loss limit hit: ...",
"Drawdown limit hit: ..." and "Consecutive loss limit: ...". -/
inductive HaltReason
  | dailyLoss | drawdown | consecLosses
deriving DecidableEq, Repr

/-- The check `"daily" in self._halt_reason.lower()` of `update_equity`:
of the three reason strings, exactly the daily-loss one contains "daily"
once lower-cased (and `None` is falsy). -/
def reason_is_daily : Option HaltReason → Bool
  | some .dailyLoss => true
  | _ => false

/-- The mutable state of `AggressiveRiskManager` touched by
`update_equity`, `record_trade` and `reset_halt`. -/
structure RiskMState where
  equity : ℚ
  peak_equity : ℚ
  day_start_equity : ℚ
  consecutive_losses : ℕ
  is_halted : Bool
  halt_reason : Option HaltReason

/-- `(peak - equity) / peak if peak > 0 else 0`, the drawdown computed by
`update_equity`. -/
def drawdown_of (peak e : ℚ) : ℚ :=
  if peak > 0 then (peak - e) / peak else 0

/-- `(equity - day_start) / day_start if day_start > 0 else 0`, the daily
P&L computed by `update_equity`. -/
def daily_pnl_of (day_start e : ℚ) : ℚ :=
  if day_start > 0 then (e - day_start) / day_start else 0

/-- The new-day block at the top of `update_equity`: on a new trading day,
reset the day-start baseline and clear the halt only when the stored halt
reason contains "daily". -/
def apply_new_day (s : RiskMState) (new_equity : ℚ) (new_day : Bool) : RiskMState :=
  if new_day then
    let s1 := { s with day_start_equity := new_equity }
    if s1.is_halted = true ∧ reason_is_daily s1.halt_reason = true then
      { s1 with is_halted := false, halt_reason := none }
    else s1
  else s

/-- The halt-condition block of `update_equity`: evaluated only when not
already halted; daily-loss, then drawdown, then consecutive-loss. -/
def check_halts (cfg : AggressiveRiskConfig) (s : RiskMState) (new_equity : ℚ) :
    RiskMState :=
  if s.is_halted = false then
    if daily_pnl_of s.day_start_equity new_equity ≤ -(get_daily_loss_halt cfg new_equity) then
      { s with is_halted := true, halt_reason := some HaltReason.dailyLoss }
    else if drawdown_of s.peak_equity new_equity ≥ get_drawdown_halt cfg new_equity then
      { s with is_halted := true, halt_reason := some HaltReason.drawdown }
    else if cfg.max_consecutive_losses ≤ s.consecutive_losses then
      { s with is_halted := true, halt_reason := some HaltReason.consecLosses }
    else s
  else s

/-- `AggressiveRiskManager.update_equity`. `new_day` tells whether
`datetime.utcnow()` has moved to a new calendar date since the last call. -/
def update_equity (cfg : AggressiveRiskConfig) (s : RiskMState)
    (new_equity : ℚ) (new_day : Bool) : RiskMState :=
  let s1 := apply_new_day s new_equity new_day
  let s2 := { s1 with
    equity := new_equity
    peak_equity := if new_equity > s1.peak_equity then new_equity else s1.peak_equity }
  check_halts cfg s2 new_equity

/-- `AggressiveRiskManager.reset_halt`. -/
def reset_halt (s : RiskMState) : RiskMState :=
  { s with is_halted := false, halt_reason := none, consecutive_losses := 0 }

/-- The consecutive-loss update of `AggressiveRiskManager.record_trade`:
increment on `pnl_pct < 0`, reset to zero otherwise ("Reset on any win"). -/
def record_trade_consec (consecutive_losses : ℕ) (pnl_pct : ℚ) : ℕ :=
  if pnl_pct < 0 then consecutive_losses + 1 else 0

/-! ## Compound growth tracker and engine sizing (hyper_growth_engine.py) -/

/-- `CompoundGrowthTracker` dataclass with source defaults. -/
structure GrowthTracker where
  starting_equity : ℚ := 100
  target_equity : ℚ := 500
  current_equity : ℚ := 100
  trade_returns : List ℚ := []
  win_count : ℕ := 0
  loss_count : ℕ := 0

/-- `CompoundGrowthTracker.update`: a return of exactly zero falls into the
`else` branch and is counted as a loss. -/
def GrowthTracker.update (t : GrowthTracker) (trade_return_pct : ℚ) : GrowthTracker :=
  { t with
    trade_returns := t.trade_returns ++ [trade_return_pct]
    win_count := if trade_return_pct > 0 then t.win_count + 1 else t.win_count
    loss_count := if trade_return_pct > 0 then t.loss_count else t.loss_count + 1
    current_equity := t.current_equity * (1 + trade_return_pct) }

/-- `CompoundGrowthTracker.progress_pct`. -/
def progress_pct (t : GrowthTracker) : ℚ :=
  let needed := t.target_equity - t.starting_equity
  let achieved := t.current_equity - t.starting_equity
  max 0 (min 1 (achieved / needed))

/-- `CompoundGrowthTracker.get_aggression_multiplier`. -/
def get_aggression_multiplier (t : GrowthTracker) : ℚ :=
  if progress_pct t < 1/2 then 1
  else if progress_pct t < 8/10 then 9/10
  else 8/10

/-- The consecutive-loss update of `HyperGrowthEngine.on_position_close`:
reset on `pnl_pct > 0`, increment otherwise (so a zero return increments). -/
def on_position_close_consec (consecutive_losses : ℕ) (pnl_pct : ℚ) : ℕ :=
  if pnl_pct > 0 then 0 else consecutive_losses + 1

/-- The fields of `HyperGrowthConfig` used by the embedded code, with
source defaults. -/
structure HyperGrowthConfig where
  base_position_pct : ℚ := 30/100
  strong_signal_pct : ℚ := 40/100
  max_single_position_pct : ℚ := 45/100
  min_position_pct : ℚ := 15/100
  initial_stop_atr_mult : ℚ := 2
  hard_stop_pct : ℚ := 4/100
  min_signal_strength : ℚ := 35/100
  strong_signal_threshold : ℚ := 70/100
  min_sources_agreeing : ℕ := 2

/-- The config instance built by `HyperGrowthEngine.__init__` when no
config is passed: all defaults. -/
def defaultHGConfig : HyperGrowthConfig := {}

/-- `HyperGrowthEngine._calculate_position_size`. The Python `1e-9`
interpolation guard is the exact rational `1/10^9`; `equity` is accepted
and, as in the source, unused. -/
def hg_calculate_position_size (cfg : HyperGrowthConfig) (tracker : GrowthTracker)
    (signal_strength equity : ℚ) : ℚ :=
  let aggression := get_aggression_multiplier tracker
  let size_pct0 :=
    if signal_strength ≥ cfg.strong_signal_threshold then cfg.strong_signal_pct
    else
      let t := (signal_strength - cfg.min_signal_strength) /
        (cfg.strong_signal_threshold - cfg.min_signal_strength + 1/1000000000)
      cfg.base_position_pct + t * (cfg.strong_signal_pct - cfg.base_position_pct)
  let size_pct1 := size_pct0 * aggression
  let size_pct2 := min size_pct1 cfg.max_single_position_pct
  max size_pct2 cfg.min_position_pct

/-- The long-entry ATR stop of `HyperGrowthEngine.generate_signals`:
`current_price - atr * initial_stop_atr_mult` (before the hard-stop-%
override). -/
def long_atr_stop (cfg : HyperGrowthConfig) (price atr : ℚ) : ℚ :=
  price - atr * cfg.initial_stop_atr_mult

/-- The long-entry stop after the hard-stop-% override:
`max(atr_stop, price * (1 - hard_stop_pct))`. -/
def long_entry_stop (cfg : HyperGrowthConfig) (price atr : ℚ) : ℚ :=
  max (long_atr_stop cfg price atr) (price * (1 - cfg.hard_stop_pct))

/-! ## Signal fusion (`HyperGrowthEngine._fuse_signals`) -/

/-- Signal direction as produced by each source. -/
inductive Direction
  | bull | bear | neutral
deriving DecidableEq, Repr

/-- Market regime tags consumed by `_fuse_signals`. -/
inductive Regime
  | bull | bear | neutral | high_vol
deriving DecidableEq, Repr

/-- One source's output as it enters the fusion loop: its score, its
direction, and its accuracy record `{"correct": c, "total": t}` from
`self._source_accuracy`. -/
structure SourceReading where
  score : ℚ
  dir : Direction
  correct : ℚ
  total : ℚ

/-- `HyperGrowthEngine._get_source_weight`:
`max(0.3, correct / max(total, 1.0))`. -/
def get_source_weight (correct total : ℚ) : ℚ :=
  max (3/10) (correct / max total 1)

/-- The accumulator of the fusion loop. -/
structure FuseTotals where
  bull_score : ℚ := 0
  bear_score : ℚ := 0
  total_weight : ℚ := 0
  bull_count : ℕ := 0
  bear_count : ℕ := 0

/-- One iteration of the fusion loop of `_fuse_signals`: skip zero scores,
weight by accuracy, multiply by 1.2 when the source direction matches the
regime bias, and accumulate per direction. -/
def fuse_step (bull_bias bear_bias : Bool) (t : FuseTotals) (r : SourceReading) :
    FuseTotals :=
  if r.score ≤ 0 then t
  else
    let w := get_source_weight r.correct r.total
    match r.dir with
    | .bull =>
      let w := if bull_bias then w * (12/10) else w
      { t with bull_score := t.bull_score + r.score * w
               total_weight := t.total_weight + w
               bull_count := t.bull_count + 1 }
    | .bear =>
      let w := if bear_bias then w * (12/10) else w
      { t with bear_score := t.bear_score + r.score * w
               total_weight := t.total_weight + w
               bear_count := t.bear_count + 1 }
    | .neutral => t

/-- The fusion totals over all sources, with the regime bias of
`_fuse_signals` (`regime in ("bull", "high_vol")` boosts bull sources,
`regime in ("bear",)` boosts bear sources). -/
def fuse_totals (regime : Regime) (readings : List SourceReading) : FuseTotals :=
  readings.foldl
    (fuse_step (decide (regime = .bull ∨ regime = .high_vol)) (decide (regime = .bear)))
    {}

/-- The normalized bull score `bull_score / total_weight` of `_fuse_signals`. -/
def bull_norm (regime : Regime) (readings : List SourceReading) : ℚ :=
  (fuse_totals regime readings).bull_score / (fuse_totals regime readings).total_weight

/-- The normalized bear score `bear_score / total_weight` of `_fuse_signals`. -/
def bear_norm (regime : Regime) (readings : List SourceReading) : ℚ :=
  (fuse_totals regime readings).bear_score / (fuse_totals regime readings).total_weight

/-- The result of `_fuse_signals`: combined score, direction, and the
number of sources contributing to that direction (the length of the
returned `active_sources` list). -/
structure FusedSignal where
  score : ℚ
  dir : Direction
  sources : ℕ
deriving DecidableEq, Repr

/-- `HyperGrowthEngine._fuse_signals`, over the eight sources' outputs:
requires a strict majority for a direction and at least
`min_sources_agreeing` contributing sources, else neutral with score 0. -/
def fuse_signals (min_sources_agreeing : ℕ) (regime : Regime)
    (readings : List SourceReading) : FusedSignal :=
  if (fuse_totals regime readings).total_weight ≤ 0 then ⟨0, .neutral, 0⟩
  else if bull_norm regime readings > bear_norm regime readings ∧
      min_sources_agreeing ≤ (fuse_totals regime readings).bull_count then
    ⟨bull_norm regime readings, .bull, (fuse_totals regime readings).bull_count⟩
  else if bear_norm regime readings > bull_norm regime readings ∧
      min_sources_agreeing ≤ (fuse_totals regime readings).bear_count then
    ⟨bear_norm regime readings, .bear, (fuse_totals regime readings).bear_count⟩
  else ⟨0, .neutral, 0⟩

/-- The emission gate of `HyperGrowthEngine.generate_signals`: after fusion,
`if combined_score < min_signal_strength or direction == "neutral": return`
— a directional signal is emitted exactly when neither holds. -/
def signal_emitted (cfg : HyperGrowthConfig) (regime : Regime)
    (readings : List SourceReading) : Bool :=
  !(decide ((fuse_signals cfg.min_sources_agreeing regime readings).score <
      cfg.min_signal_strength)) &&
  !(decide ((fuse_signals cfg.min_sources_agreeing regime readings).dir = Direction.neutral))

/-! ## Memecoin position lifecycle (memecoin_engine.py) -/

/-- Exit reasons of `MemecoinPosition.should_exit`, abstracting the fixed
prefix of the returned f-strings ("Stop loss: ...", "Trailing stop: ...",
and the empty string when no exit fires). -/
inductive MemeExitReason
  | noExit | stopLoss | trailingStop
deriving DecidableEq, Repr

/-- `MemecoinPosition` dataclass (the fields driving the lifecycle, with
source defaults). -/
structure MemecoinPosition where
  entry_price : ℚ
  entry_amount_sol : ℚ
  entry_amount_tokens : ℚ
  current_price : ℚ := 0
  current_value_sol : ℚ := 0
  unrealized_pnl_pct : ℚ := 0
  peak_price : ℚ := 0
  peak_pnl_pct : ℚ := 0
  stop_loss_pct : ℚ := -(25/100)
  trailing_stop_pct : ℚ := 30/100
  take_profit_levels : List ℚ := [2, 5, 10, 20, 50, 100]
  partial_exits_done : List ℚ := []
  is_active : Bool := true

/-- `MemecoinPosition.update_price`: recompute P&L, track the peak, and
refresh the position value. -/
def update_price (p : MemecoinPosition) (new_price : ℚ) : MemecoinPosition :=
  let pnl := if p.entry_price > 0 then (new_price - p.entry_price) / p.entry_price
             else p.unrealized_pnl_pct
  let peaked := decide (new_price > p.peak_price)
  { p with
    current_price := new_price
    unrealized_pnl_pct := pnl
    peak_price := if peaked then new_price else p.peak_price
    peak_pnl_pct := if peaked then pnl else p.peak_pnl_pct
    current_value_sol := if p.entry_price > 0 then p.entry_amount_sol * (1 + pnl)
                         else p.current_value_sol }

/-- The adaptive-trail selection inside `MemecoinPosition.should_exit`
("The more we're up, the tighter the trailing stop"): the if/elif chain
over `peak_pnl_pct` tiers, falling back to the position's base
`trailing_stop_pct`. -/
def trail_for_peak_gain (trailing_stop_pct peak_pnl_pct : ℚ) : ℚ :=
  if peak_pnl_pct ≥ 10 then 15/100
  else if peak_pnl_pct ≥ 5 then 20/100
  else if peak_pnl_pct ≥ 2 then 25/100
  else if peak_pnl_pct ≥ 1 then 30/100
  else if peak_pnl_pct ≥ 1/2 then 35/100
  else trailing_stop_pct

/-- `MemecoinPosition.should_exit`: hard stop loss first, then the adaptive
trailing stop from peak (only when `peak_pnl_pct > 0`). -/
def should_exit (p : MemecoinPosition) : Bool × MemeExitReason :=
  if p.is_active = false then (false, .noExit)
  else if p.unrealized_pnl_pct ≤ p.stop_loss_pct then (true, .stopLoss)
  else if p.peak_pnl_pct > 0 then
    let trail := trail_for_peak_gain p.trailing_stop_pct p.peak_pnl_pct
    let drawdown_from_peak :=
      if p.peak_price > 0 then (p.peak_price - p.current_price) / p.peak_price else 0
    if drawdown_from_peak ≥ trail then (true, .trailingStop) else (false, .noExit)
  else (false, .noExit)

/-- `MemecoinPosition.get_partial_exit_level`: the first configured
take-profit level that the current gain has reached and that is not in
`partial_exits_done`. -/
def get_partial_exit_level (p : MemecoinPosition) : Option ℚ :=
  p.take_profit_levels.find? fun level =>
    decide (p.unrealized_pnl_pct ≥ level) && !(p.partial_exits_done.contains level)

/-- The position mutation of the partial-exit branch (`sell_pct < 0.99`) of
`MemecoinEngine.execute_sell`: it appends the position's current
`unrealized_pnl_pct` — not the take-profit level being harvested — to
`partial_exits_done`, and shrinks the remaining size. Python's `int()`
truncation of the token amount is `Int.floor`, identical for the
nonnegative amounts in play. -/
def execute_sell_partial_update (p : MemecoinPosition) (sell_pct : ℚ) :
    MemecoinPosition :=
  { p with
    partial_exits_done := p.partial_exits_done ++ [p.unrealized_pnl_pct]
    entry_amount_tokens := ((⌊p.entry_amount_tokens * (1 - sell_pct)⌋ : ℤ) : ℚ)
    entry_amount_sol := p.entry_amount_sol * (1 - sell_pct) }

/-! ## Edge-decay monitor (`HARDetector`, run_api.py) -/

/-- Python's `trade_log[-lookback:]`: the last `lookback` entries, the whole
list when `lookback = 0` (since `log[-0:] = log[0:]`) or when the list is
shorter. -/
def last_slice (lookback : ℕ) (l : List ℚ) : List ℚ :=
  if lookback = 0 then l else l.drop (l.length - lookback)

/-- `HARDetector.calculate_har` over the trade log's `pnl` values: 0.5 for
an empty log or fewer than 5 recent trades, else the win rate over the last
`lookback` trades. -/
def calculate_har (lookback : ℕ) (trade_log : List ℚ) : ℚ :=
  if trade_log = [] then 1/2
  else
    let recent := last_slice lookback trade_log
    if recent.length < 5 then 1/2
    else ((recent.countP fun p => decide (p > 0) : ℕ) : ℚ) / (recent.length : ℚ)

/-- `HARDetector.detect_edge_decay`, abstracting the alert bookkeeping:
given the prior `strategic_inactivity` flag, returns
`(is_decaying, current_har, new strategic_inactivity flag)`. -/
def detect_edge_decay (lookback : ℕ) (threshold : ℚ) (strategic_inactivity : Bool)
    (trade_log : List ℚ) : Bool × ℚ × Bool :=
  let current_har := calculate_har lookback trade_log
  let is_decaying := decide (current_har < threshold)
  let inactive :=
    if is_decaying = true ∧ strategic_inactivity = false then true
    else if is_decaying = false ∧ strategic_inactivity = true then false
    else strategic_inactivity
  (is_decaying, current_har, inactive)

/-! ## Theorems -/

/-- C1: The Risk Gate rejects every signal whose absolute strength is at
most twice the state's noise level (the equality boundary included), with
the variance-inequality reason, whatever the other state fields hold; and
the variance check passes exactly when the absolute strength strictly
exceeds twice the noise level. -/
theorem verify_signal_variance_gate (env : VerifyEnv) (sig : VerifySignal)
    (st : VerifyState) (n : ℕ) (hs : Bool)
    (h : |sig.strength| ≤ 2 * st.noise_level) :
    verify_signal env sig st n hs = (false, variance_reason) ∧
    (check_variance_inequality sig.strength st.noise_level = true ↔
      2 * st.noise_level < |sig.strength|) := by
  constructor
  · have hc : check_variance_inequality sig.strength st.noise_level = false := by
      simp only [check_variance_inequality, decide_eq_false_iff_not, not_lt]
      linarith [h]
    simp [verify_signal, hc]
  · simp only [check_variance_inequality, decide_eq_true_eq]
    constructor <;> intro h' <;> linarith [h']

/-- C1 witness: at the exact boundary (strength 1/50, noise 1/100, so
`|strength| = 2 × noise`), the gate rejects with the variance reason. -/
theorem verify_signal_variance_gate_witness :
    |(1 : ℚ)/50| ≤ 2 * (1/100) ∧
    verify_signal {} ⟨1/50, true⟩ ⟨1/100, 0, 0, 7/10⟩ 0 false =
      (false, variance_reason) :=
  ⟨by norm_num [abs], (verify_signal_variance_gate {} ⟨1/50, true⟩ ⟨1/100, 0, 0, 7/10⟩ 0 false
      (by norm_num [abs])).1⟩

/-- C2 counterexample: at equity $10 with a full-strength signal, the seed
phase's maximum is 40%, but the minimum-trade-value floor ($5) raises the
returned position percentage to 50%, refuting
`position_pct ≤ phase.max_position_pct` in the floored case. -/
theorem position_size_floor_exceeds_phase_max :
    ¬ ((calculate_position_size defaultRiskConfig 10 1 (1/40)).position_pct ≤
        get_max_position_pct defaultRiskConfig 10) := by
  intro h
  simp only [calculate_position_size, get_max_position_pct, get_phase, defaultRiskConfig] at h
  norm_num at h

/-- C3: with the dataclass default base trail `trailing_stop_pct = 30%`,
the adaptive trail of `MemecoinPosition.should_exit` is not a non-increasing
function of peak gain: a +40% peak gain gets a 30% trail while a +50% peak
gain gets a looser 35% trail, contradicting both the claim and the code's
own comment that the trail tightens as the gain grows. -/
theorem trailing_stop_not_monotone_at_default :
    trail_for_peak_gain (30/100) (2/5) = 30/100 ∧
    trail_for_peak_gain (30/100) (1/2) = 35/100 ∧
    (2 : ℚ)/5 ≤ 1/2 ∧
    ¬ (trail_for_peak_gain (30/100) (1/2) ≤ trail_for_peak_gain (30/100) (2/5)) := by
  norm_num [trail_for_peak_gain]

/-- C4 counterexample: a memecoin position entered at 100 whose price rises
to 115 and then falls through 100 to 97 does not exit: the +15% peak gain
is far below the first adaptive tier (+50%), so the 30% base trail applies
and the 15.7% drawdown from peak leaves the position open — the claimed
"Trailing stop" full exit at 97 does not fire. -/
theorem scenarioC_no_exit_at_97 :
    should_exit
      (update_price (update_price (update_price
        { entry_price := 100, entry_amount_sol := 1, entry_amount_tokens := 0 } 115)
        100) 97) = (false, MemeExitReason.noExit) := by
  norm_num [should_exit, update_price, trail_for_peak_gain]

/-- C4 amended: entry at 100 with ATR 2 and `initial_stop_atr_mult = 2`
gives stop 96 both before and after the hard-stop-% override; after the
price peaks at 115 (+15% peak gain, so the base 30% trail applies, not a
15% one), drops to 100 (13% off peak) and to 97 (15.7% off peak) both leave
the position open, and the trailing exit fires once the drawdown from peak
reaches 30%, e.g. at price 80. -/
theorem scenarioC_amended :
    long_atr_stop defaultHGConfig 100 2 = 96 ∧
    long_entry_stop defaultHGConfig 100 2 = 96 ∧
    should_exit
      (update_price (update_price
        { entry_price := 100, entry_amount_sol := 1, entry_amount_tokens := 0 } 115)
        100) = (false, MemeExitReason.noExit) ∧
    should_exit
      (update_price (update_price (update_price
        { entry_price := 100, entry_amount_sol := 1, entry_amount_tokens := 0 } 115)
        100) 97) = (false, MemeExitReason.noExit) ∧
    should_exit
      (update_price (update_price
        { entry_price := 100, entry_amount_sol := 1, entry_amount_tokens := 0 } 115)
        80) = (true, MemeExitReason.trailingStop) := by
  refine ⟨by norm_num [long_atr_stop, defaultHGConfig],
    by norm_num [long_entry_stop, long_atr_stop, defaultHGConfig], ?_, ?_, ?_⟩ <;>
    norm_num [should_exit, update_price, trail_for_peak_gain]

/-- C5: a position entered at price 1 and now trading at 3.5 has an
unrealized gain of 250%, so `get_partial_exit_level` returns the 200%
take-profit level; but the partial-exit branch of `execute_sell` records
the current gain 2.5 — not the level 2.0 — in `partial_exits_done`, so at
the same unchanged price `get_partial_exit_level` returns the 200% level
again: the partial exit is not idempotent. -/
theorem partial_exit_level_refires :
    get_partial_exit_level
      (update_price { entry_price := 1, entry_amount_sol := 1, entry_amount_tokens := 1000 }
        (7/2)) = some 2 ∧
    (execute_sell_partial_update
      (update_price { entry_price := 1, entry_amount_sol := 1, entry_amount_tokens := 1000 }
        (7/2)) (1/5)).partial_exits_done = [5/2] ∧
    get_partial_exit_level
      (execute_sell_partial_update
        (update_price { entry_price := 1, entry_amount_sol := 1, entry_amount_tokens := 1000 }
          (7/2)) (1/5)) = some 2 := by
  refine ⟨?_, ?_, ?_⟩
  · norm_num [get_partial_exit_level, update_price, List.find?]
  · norm_num [execute_sell_partial_update, update_price]
  · norm_num [get_partial_exit_level, execute_sell_partial_update, update_price,
      List.find?, List.contains]

/-- C6 counterexample: two bull sources each scoring exactly 0.35 with the
default accuracy record (1 correct of 2) fuse, in a neutral regime, to a
normalized bull score of exactly `min_signal_strength = 0.35`; the pipeline
emits the signal although the score does not strictly exceed the threshold,
refuting the claim's "only if ... exceeds min_signal_strength". -/
theorem fusion_emits_at_exact_threshold :
    signal_emitted defaultHGConfig .neutral
      [⟨35/100, .bull, 1, 2⟩, ⟨35/100, .bull, 1, 2⟩] = true ∧
    (fuse_signals defaultHGConfig.min_sources_agreeing .neutral
      [⟨35/100, .bull, 1, 2⟩, ⟨35/100, .bull, 1, 2⟩]).score =
      defaultHGConfig.min_signal_strength ∧
    ¬ (defaultHGConfig.min_signal_strength <
        (fuse_signals defaultHGConfig.min_sources_agreeing .neutral
          [⟨35/100, .bull, 1, 2⟩, ⟨35/100, .bull, 1, 2⟩]).score) := by
  refine ⟨?_, ?_, ?_⟩
  · simp [signal_emitted, fuse_signals, bull_norm, bear_norm, fuse_totals, fuse_step,
      get_source_weight, defaultHGConfig, List.foldl]
    norm_num
    decide
  · simp [fuse_signals, bull_norm, bear_norm, fuse_totals, fuse_step, get_source_weight,
      defaultHGConfig, List.foldl]
    norm_num
  · simp [fuse_signals, bull_norm, bear_norm, fuse_totals, fuse_step, get_source_weight,
      defaultHGConfig, List.foldl]
    norm_num

/-- C9: the time predicate `now.hour >= 15 and now.minute >= 50` of
`_is_past_hard_stop` misses 4:10 PM ET, which is strictly later than the
3:50 PM hard stop, so a long-entry signal passes the whole gate then; and
at 3:55 PM the gate rejects a position-closing (sell) signal with the
hard-stop reason, although the claim says such signals still pass. -/
theorem hard_stop_time_bug :
    strictly_after_350pm 16 10 ∧
    is_past_hard_stop 16 10 = false ∧
    verify_signal {} ⟨1/2, true⟩ ⟨1/100, 0, 0, 7/10⟩ 0 (is_past_hard_stop 16 10) =
      (true, "Signal verified") ∧
    is_past_hard_stop 15 55 = true ∧
    verify_signal {} ⟨1/2, false⟩ ⟨1/100, 0, 0, 7/10⟩ 0 (is_past_hard_stop 15 55) =
      (false, "Past hard stop time (3:50 PM ET)") := by
  refine ⟨Or.inl (by norm_num), by decide,
    by norm_num [verify_signal, check_variance_inequality, is_past_hard_stop, abs],
    by decide,
    by norm_num [verify_signal, check_variance_inequality, is_past_hard_stop, abs]⟩

/-- C10: a closed trade with exactly zero return is classified
inconsistently: `CompoundGrowthTracker.update` counts it as a loss (the
loss counter increments, the win counter and the compounded equity do not
change), `HyperGrowthEngine.on_position_close` increments its
consecutive-loss counter, while `AggressiveRiskManager.record_trade`
treats it as a non-loss and resets its consecutive-loss counter to zero. -/
theorem zero_return_classification (t : GrowthTracker) (c : ℕ) :
    (GrowthTracker.update t 0).loss_count = t.loss_count + 1 ∧
    (GrowthTracker.update t 0).win_count = t.win_count ∧
    (GrowthTracker.update t 0).current_equity = t.current_equity ∧
    on_position_close_consec c 0 = c + 1 ∧
    record_trade_consec c 0 = 0 := by
  refine ⟨?_, ?_, ?_, ?_, ?_⟩ <;>
    simp [GrowthTracker.update, on_position_close_consec, record_trade_consec]

/-- Helper: every phase of the default risk config carries a positive
maximum position percentage. -/
lemma get_max_position_pct_pos (e : ℚ) : 0 < get_max_position_pct defaultRiskConfig e := by
  unfold get_max_position_pct
  cases h : get_phase defaultRiskConfig e <;> norm_num [defaultRiskConfig]

/-- C2 amended: under the default configs, the AggressiveRiskManager sizer
always returns at least half the phase maximum, and stays at or below the
phase maximum whenever the computed notional reaches the minimum trade
value (when it is floored instead, the percentage becomes
`min_trade_value / equity`, which can exceed the phase maximum); the
HyperGrowthEngine sizer is always clamped to
`[min_position_pct, max_single_position_pct]` = [15%, 45%], independent of
equity. -/
theorem position_size_bounds_amended (equity signal_strength stop_distance_pct : ℚ)
    (tracker : GrowthTracker) (h : 0 < equity) :
    (get_max_position_pct defaultRiskConfig equity / 2 ≤
      (calculate_position_size defaultRiskConfig equity signal_strength
        stop_distance_pct).position_pct) ∧
    (defaultRiskConfig.min_trade_value_usd ≤
        equity * min (get_max_position_pct defaultRiskConfig equity)
          (get_max_position_pct defaultRiskConfig equity * max (1/2) signal_strength) →
      (calculate_position_size defaultRiskConfig equity signal_strength
        stop_distance_pct).position_pct ≤ get_max_position_pct defaultRiskConfig equity) ∧
    defaultHGConfig.min_position_pct ≤
      hg_calculate_position_size defaultHGConfig tracker signal_strength equity ∧
    hg_calculate_position_size defaultHGConfig tracker signal_strength equity ≤
      defaultHGConfig.max_single_position_pct := by
  have hm0 : 0 < get_max_position_pct defaultRiskConfig equity := get_max_position_pct_pos equity
  set m := get_max_position_pct defaultRiskConfig equity with hm
  set s1 := min m (m * max (1/2) signal_strength) with hs1
  have hhalf : m / 2 ≤ s1 := by
    apply le_min
    · linarith
    · have := mul_le_mul_of_nonneg_left (le_max_left (1/2 : ℚ) signal_strength) hm0.le
      linarith
  have hproj : (calculate_position_size defaultRiskConfig equity signal_strength
      stop_distance_pct).position_pct =
      if equity * s1 < defaultRiskConfig.min_trade_value_usd then
        defaultRiskConfig.min_trade_value_usd / equity else s1 := rfl
  refine ⟨?_, ?_, ?_, ?_⟩
  · rw [hproj]
    split
    · rename_i hf
      have hlt : s1 < defaultRiskConfig.min_trade_value_usd / equity := by
        rw [lt_div_iff₀ h]
        linarith [hf]
      linarith
    · exact hhalf
  · intro hge
    rw [hproj, if_neg (not_lt.mpr hge)]
    exact min_le_left _ _
  · simp only [hg_calculate_position_size]
    exact le_max_right _ _
  · simp only [hg_calculate_position_size]
    apply max_le (min_le_right _ _)
    norm_num [defaultHGConfig]

/-- C2 witness: at equity $100 with a full-strength signal (seed phase,
notional $40 ≥ $5, so no floor) the aggressive sizer lands between 20% and
40%, and the engine sizer between 15% and 45%. -/
theorem position_size_bounds_amended_witness :
    (0 : ℚ) < 100 ∧
    defaultRiskConfig.min_trade_value_usd ≤
      100 * min (get_max_position_pct defaultRiskConfig 100)
        (get_max_position_pct defaultRiskConfig 100 * max (1/2) 1) ∧
    (get_max_position_pct defaultRiskConfig 100 / 2 ≤
      (calculate_position_size defaultRiskConfig 100 1 (1/40)).position_pct) ∧
    ((calculate_position_size defaultRiskConfig 100 1 (1/40)).position_pct ≤
      get_max_position_pct defaultRiskConfig 100) ∧
    defaultHGConfig.min_position_pct ≤
      hg_calculate_position_size defaultHGConfig {} 1 100 ∧
    hg_calculate_position_size defaultHGConfig {} 1 100 ≤
      defaultHGConfig.max_single_position_pct := by
  have H := position_size_bounds_amended 100 1 (1/40) {} (by norm_num)
  have hge : defaultRiskConfig.min_trade_value_usd ≤
      100 * min (get_max_position_pct defaultRiskConfig 100)
        (get_max_position_pct defaultRiskConfig 100 * max (1/2) 1) := by
    norm_num [get_max_position_pct, get_phase, defaultRiskConfig]
  exact ⟨by norm_num, hge, H.1, H.2.1 hge, H.2.2.1, H.2.2.2⟩

/-- C6 amended: the fusion pipeline emits a directional signal only if the
winning direction's normalized score is at least `min_signal_strength`
(the gate is non-strict: an exact tie with the threshold still emits), at
least `min_sources_agreeing` sources contributed to it, and it holds a
strict majority over the opposite direction; and whenever the bull and
bear normalized scores are exactly equal, the fusion result is neutral
with score 0, so no signal is emitted. -/
theorem fusion_gate_amended (cfg : HyperGrowthConfig) (regime : Regime)
    (readings : List SourceReading) :
    (signal_emitted cfg regime readings = true →
      cfg.min_signal_strength ≤
        (fuse_signals cfg.min_sources_agreeing regime readings).score ∧
      (fuse_signals cfg.min_sources_agreeing regime readings).dir ≠ Direction.neutral ∧
      cfg.min_sources_agreeing ≤
        (fuse_signals cfg.min_sources_agreeing regime readings).sources ∧
      ((fuse_signals cfg.min_sources_agreeing regime readings).dir = Direction.bull →
        bear_norm regime readings < bull_norm regime readings ∧
        (fuse_signals cfg.min_sources_agreeing regime readings).score =
          bull_norm regime readings) ∧
      ((fuse_signals cfg.min_sources_agreeing regime readings).dir = Direction.bear →
        bull_norm regime readings < bear_norm regime readings ∧
        (fuse_signals cfg.min_sources_agreeing regime readings).score =
          bear_norm regime readings)) ∧
    (bull_norm regime readings = bear_norm regime readings →
      fuse_signals cfg.min_sources_agreeing regime readings = ⟨0, Direction.neutral, 0⟩) := by
  by_cases h1 : (fuse_totals regime readings).total_weight ≤ 0
  · have hf : fuse_signals cfg.min_sources_agreeing regime readings =
        ⟨0, Direction.neutral, 0⟩ := by
      unfold fuse_signals
      rw [if_pos h1]
    constructor
    · intro hemit
      unfold signal_emitted at hemit
      rw [hf] at hemit
      simp at hemit
    · intro _
      exact hf
  · by_cases h2 : bull_norm regime readings > bear_norm regime readings ∧
        cfg.min_sources_agreeing ≤ (fuse_totals regime readings).bull_count
    · have hf : fuse_signals cfg.min_sources_agreeing regime readings =
          ⟨bull_norm regime readings, Direction.bull,
            (fuse_totals regime readings).bull_count⟩ := by
        unfold fuse_signals
        rw [if_neg h1, if_pos h2]
      constructor
      · intro hemit
        unfold signal_emitted at hemit
        rw [hf] at hemit
        simp only [Bool.and_eq_true, Bool.not_eq_true', decide_eq_false_iff_not] at hemit
        rw [hf]
        exact ⟨not_lt.mp hemit.1, by simp, h2.2, fun _ => ⟨h2.1, rfl⟩,
          fun hbear => by simp at hbear⟩
      · intro htie
        rw [htie] at h2
        exact absurd h2.1 (lt_irrefl _)
    · by_cases h3 : bear_norm regime readings > bull_norm regime readings ∧
          cfg.min_sources_agreeing ≤ (fuse_totals regime readings).bear_count
      · have hf : fuse_signals cfg.min_sources_agreeing regime readings =
            ⟨bear_norm regime readings, Direction.bear,
              (fuse_totals regime readings).bear_count⟩ := by
          unfold fuse_signals
          rw [if_neg h1, if_neg h2, if_pos h3]
        constructor
        · intro hemit
          unfold signal_emitted at hemit
          rw [hf] at hemit
          simp only [Bool.and_eq_true, Bool.not_eq_true', decide_eq_false_iff_not] at hemit
          rw [hf]
          exact ⟨not_lt.mp hemit.1, by simp, h3.2, fun hbull => by simp at hbull,
            fun _ => ⟨h3.1, rfl⟩⟩
        · intro htie
          rw [htie] at h3
          exact absurd h3.1 (lt_irrefl _)
      · have hf : fuse_signals cfg.min_sources_agreeing regime readings =
            ⟨0, Direction.neutral, 0⟩ := by
          unfold fuse_signals
          rw [if_neg h1, if_neg h2, if_neg h3]
        constructor
        · intro hemit
          unfold signal_emitted at hemit
          rw [hf] at hemit
          simp at hemit
        · intro _
          exact hf

/-- C6 witness: two strong bull sources (score 0.830, default accuracy) do
emit in a neutral regime, and the amended gate conditions hold for them;
with no source output at all the norms tie at zero and fusion is neutral. -/
theorem fusion_gate_amended_witness :
    (defaultHGConfig.min_signal_strength ≤
      (fuse_signals defaultHGConfig.min_sources_agreeing Regime.neutral
        [⟨8/10, .bull, 1, 2⟩, ⟨8/10, .bull, 1, 2⟩]).score ∧
    (fuse_signals defaultHGConfig.min_sources_agreeing Regime.neutral
        [⟨8/10, .bull, 1, 2⟩, ⟨8/10, .bull, 1, 2⟩]).dir ≠ Direction.neutral ∧
    defaultHGConfig.min_sources_agreeing ≤
      (fuse_signals defaultHGConfig.min_sources_agreeing Regime.neutral
        [⟨8/10, .bull, 1, 2⟩, ⟨8/10, .bull, 1, 2⟩]).sources ∧
    ((fuse_signals defaultHGConfig.min_sources_agreeing Regime.neutral
        [⟨8/10, .bull, 1, 2⟩, ⟨8/10, .bull, 1, 2⟩]).dir = Direction.bull →
      bear_norm Regime.neutral [⟨8/10, .bull, 1, 2⟩, ⟨8/10, .bull, 1, 2⟩] <
        bull_norm Regime.neutral [⟨8/10, .bull, 1, 2⟩, ⟨8/10, .bull, 1, 2⟩] ∧
      (fuse_signals defaultHGConfig.min_sources_agreeing Regime.neutral
        [⟨8/10, .bull, 1, 2⟩, ⟨8/10, .bull, 1, 2⟩]).score =
        bull_norm Regime.neutral [⟨8/10, .bull, 1, 2⟩, ⟨8/10, .bull, 1, 2⟩]) ∧
    ((fuse_signals defaultHGConfig.min_sources_agreeing Regime.neutral
        [⟨8/10, .bull, 1, 2⟩, ⟨8/10, .bull, 1, 2⟩]).dir = Direction.bear →
      bull_norm Regime.neutral [⟨8/10, .bull, 1, 2⟩, ⟨8/10, .bull, 1, 2⟩] <
        bear_norm Regime.neutral [⟨8/10, .bull, 1, 2⟩, ⟨8/10, .bull, 1, 2⟩] ∧
      (fuse_signals defaultHGConfig.min_sources_agreeing Regime.neutral
        [⟨8/10, .bull, 1, 2⟩, ⟨8/10, .bull, 1, 2⟩]).score =
        bear_norm Regime.neutral [⟨8/10, .bull, 1, 2⟩, ⟨8/10, .bull, 1, 2⟩])) ∧
    fuse_signals defaultHGConfig.min_sources_agreeing Regime.neutral [] =
      ⟨0, Direction.neutral, 0⟩ := by
  refine ⟨(fusion_gate_amended defaultHGConfig Regime.neutral
      [⟨8/10, .bull, 1, 2⟩, ⟨8/10, .bull, 1, 2⟩]).1 ?_,
    (fusion_gate_amended defaultHGConfig Regime.neutral []).2 ?_⟩
  · simp [signal_emitted, fuse_signals, bull_norm, bear_norm, fuse_totals, fuse_step,
      get_source_weight, defaultHGConfig, List.foldl]
    norm_num
    decide
  · simp [bull_norm, bear_norm, fuse_totals, List.foldl]

/-- C7: once halted, every equity update keeps the manager halted with an
unchanged reason, except that an update on a new trading day clears a
daily-loss halt (after which the fresh halt conditions are re-evaluated
from the reset day baseline, where the daily P&L is zero); a drawdown or
consecutive-loss halt is never cleared by an equity update, even on a new
day; and `reset_halt` clears a halt of any type. -/
theorem halt_persistence (cfg : AggressiveRiskConfig) (s : RiskMState) (e : ℚ) (d : Bool) :
    (s.is_halted = true → reason_is_daily s.halt_reason = false →
      (update_equity cfg s e d).is_halted = true ∧
      (update_equity cfg s e d).halt_reason = s.halt_reason) ∧
    (s.is_halted = true → d = false →
      (update_equity cfg s e d).is_halted = true ∧
      (update_equity cfg s e d).halt_reason = s.halt_reason) ∧
    (s.is_halted = true → s.halt_reason = some HaltReason.dailyLoss → d = true →
      0 < get_daily_loss_halt cfg e →
      drawdown_of (if e > s.peak_equity then e else s.peak_equity) e <
        get_drawdown_halt cfg e →
      s.consecutive_losses < cfg.max_consecutive_losses →
      (update_equity cfg s e d).is_halted = false) ∧
    ((reset_halt s).is_halted = false ∧ (reset_halt s).halt_reason = none) := by
  refine ⟨?_, ?_, ?_, ⟨rfl, rfl⟩⟩
  · intro h1 h2
    simp only [update_equity, apply_new_day, check_halts, h1, h2]
    split <;> simp [h1]
  · intro h1 hd
    subst hd
    simp only [update_equity, apply_new_day, check_halts, h1]
    simp [h1]
  · intro h1 hr hd hdaily hdd hcl
    subst hd
    have hpnl : daily_pnl_of e e = 0 := by
      unfold daily_pnl_of
      split <;> simp
    have hc1 : ¬ ((0:ℚ) ≤ -(get_daily_loss_halt cfg e)) := by linarith
    have hc3 : ¬ (cfg.max_consecutive_losses ≤ s.consecutive_losses) := by omega
    simp only [update_equity, apply_new_day, check_halts, h1, hr, reason_is_daily]
    simp only [if_true, and_self, if_pos]
    rw [hpnl]
    rw [if_neg hc1, if_neg (not_le.mpr hdd), if_neg hc3]

/-- C7 witness: a drawdown halt survives a new-day equity update unchanged;
a daily-loss halt survives a same-day update; a daily-loss halt is cleared
by a new-day update with benign fresh conditions; and a manual reset clears
a drawdown halt. -/
theorem halt_persistence_witness :
    ((update_equity defaultRiskConfig
        ⟨50, 100, 100, 0, true, some HaltReason.drawdown⟩ 60 true).is_halted = true ∧
      (update_equity defaultRiskConfig
        ⟨50, 100, 100, 0, true, some HaltReason.drawdown⟩ 60 true).halt_reason =
        some HaltReason.drawdown) ∧
    (update_equity defaultRiskConfig
      ⟨50, 100, 100, 0, true, some HaltReason.dailyLoss⟩ 60 false).is_halted = true ∧
    (update_equity defaultRiskConfig
      ⟨50, 100, 100, 0, true, some HaltReason.dailyLoss⟩ 100 true).is_halted = false ∧
    (reset_halt ⟨50, 100, 100, 0, true, some HaltReason.drawdown⟩).is_halted = false := by
  have H1 := halt_persistence defaultRiskConfig
    ⟨50, 100, 100, 0, true, some HaltReason.drawdown⟩ 60 true
  have H2 := halt_persistence defaultRiskConfig
    ⟨50, 100, 100, 0, true, some HaltReason.dailyLoss⟩ 60 false
  have H3 := halt_persistence defaultRiskConfig
    ⟨50, 100, 100, 0, true, some HaltReason.dailyLoss⟩ 100 true
  refine ⟨H1.1 rfl rfl, (H2.2.1 rfl rfl).1, H3.2.2.1 rfl rfl rfl ?_ ?_ ?_, H1.2.2.2.1⟩
  · norm_num [get_daily_loss_halt, get_phase, defaultRiskConfig]
  · norm_num [drawdown_of, get_drawdown_halt, get_phase, defaultRiskConfig]
  · norm_num [defaultRiskConfig]

/-- Helper: dropping past a prepended list reaches into the suffix. -/
lemma drop_append_length_add (pre l : List ℚ) (k : ℕ) :
    (pre ++ l).drop (pre.length + k) = l.drop k := by
  induction pre with
  | nil => simp
  | cons a t ih =>
    simp only [List.cons_append, List.length_cons]
    rw [show t.length + 1 + k = (t.length + k) + 1 by omega, List.drop_succ_cons, ih]

/-- C8: the HAR win rate depends only on the last `lookback` trades of the
log (prepending older trades changes nothing once at least `lookback`
recent trades exist); with fewer than 5 trades it is exactly 0.5; and with
fewer than 5 trades `detect_edge_decay` at the program's threshold 0.4
always leaves the monitor out of strategic inactivity, whatever its prior
state. -/
theorem har_lookback_and_min_trades (lookback : ℕ) (pre log : List ℚ) (inactive : Bool) :
    (0 < lookback → lookback ≤ log.length →
      calculate_har lookback (pre ++ log) = calculate_har lookback log) ∧
    (log.length < 5 → calculate_har lookback log = 1/2) ∧
    (log.length < 5 →
      (detect_edge_decay lookback (2/5) inactive log).2.2 = false) := by
  have key : log.length < 5 → calculate_har lookback log = 1/2 := by
    intro h5
    by_cases hl : log = []
    · simp [calculate_har, hl]
    · rw [calculate_har, if_neg hl, if_pos]
      have hle : (last_slice lookback log).length ≤ log.length := by
        unfold last_slice
        split
        · exact le_refl _
        · rw [List.length_drop]
          omega
      omega
  refine ⟨?_, key, ?_⟩
  · intro hl0 hll
    have hlog : log ≠ [] := by
      intro h
      subst h
      simp at hll
      omega
    have hpre : pre ++ log ≠ [] := by
      simp [hlog]
    have hslice : last_slice lookback (pre ++ log) = last_slice lookback log := by
      unfold last_slice
      rw [if_neg (Nat.pos_iff_ne_zero.mp hl0), if_neg (Nat.pos_iff_ne_zero.mp hl0)]
      rw [List.length_append, Nat.add_sub_assoc hll, drop_append_length_add]
    rw [calculate_har, calculate_har, if_neg hpre, if_neg hlog, hslice]
  · intro h5
    have hhar := key h5
    simp only [detect_edge_decay, hhar]
    cases inactive <;> norm_num

/-- C8 witness: prepending two old losses to a 5-trade log leaves the HAR
unchanged; a 1-trade log reads exactly 0.5; and on a 1-trade log the
detector leaves strategic inactivity even when it was previously active. -/
theorem har_lookback_and_min_trades_witness :
    (0 < 5 ∧ 5 ≤ ([1, 1, 1, -1, 1] : List ℚ).length ∧
      calculate_har 5 ([-1, -1] ++ [1, 1, 1, -1, 1]) = calculate_har 5 [1, 1, 1, -1, 1]) ∧
    (([1] : List ℚ).length < 5 ∧ calculate_har 5 [1] = 1/2) ∧
    (detect_edge_decay 5 (2/5) true [1]).2.2 = false := by
  have H1 := har_lookback_and_min_trades 5 [-1, -1] [1, 1, 1, -1, 1] true
  have H2 := har_lookback_and_min_trades 5 [] [1] true
  exact ⟨⟨by norm_num, by norm_num, H1.1 (by norm_num) (by norm_num)⟩,
    ⟨by norm_num, H2.2.1 (by norm_num)⟩, H2.2.2 (by norm_num)⟩
